import Mathlib

/-!
Shallow embedding of the greetd_game_mode daemon (src/main.rs,
src/game_mode_switch.rs, src/config.rs, src/paths.rs) and proofs about the
claims on its mode-switch control core.

External effects are made explicit:
* the filesystem is an association list from paths to file contents;
* each spawned privileged command takes its outcome (spawn error, or exit
  with a success flag) from an environment record, mirroring how the Rust
  code calls `Command::status()` / `Command::output()`;
* `std::process::exit` is a returned result value.
-/

/-- Outcome of spawning one external command: `spawnErr` models
`Command::status()` returning `Err` (the `?` operator propagates it);
`exited ok` models `Ok(status)` with `status.success() = ok`. -/
inductive CmdOutcome where
  | spawnErr
  | exited (ok : Bool)
deriving DecidableEq, Repr

/-- A filesystem snapshot: association list from absolute path to file
content.  A path is absent iff the file does not exist. -/
abbrev Fs := List (String × String)

/-- Content of the file at path `p`, if it exists. -/
def fsLookup (fs : Fs) (p : String) : Option String :=
  match fs.find? (fun e => e.1 == p) with
  | some e => some e.2
  | none => none

/-- Overwrite (or create) the file at path `p` with content `v`. -/
def fsSet (fs : Fs) (p v : String) : Fs :=
  (p, v) :: fs.filter (fun e => e.1 != p)

/-- Delete the file at path `p`. -/
def fsRemove (fs : Fs) (p : String) : Fs :=
  fs.filter (fun e => e.1 != p)

/-- Existence test, mirroring `Path::exists`. -/
def fsExists (fs : Fs) (p : String) : Bool :=
  (fsLookup fs p).isSome

/-- Effect of a successful `cp src dst`: the destination receives the
source's content (no change when the source is absent). -/
def cpEffect (fs : Fs) (src dst : String) : Fs :=
  match fsLookup fs src with
  | some v => fsSet fs dst v
  | none => fs

/-! ## String primitives

The Lean standard library's `String.startsWith`, `String.splitOn`,
`String.trim` and `Nat.repr` do not reduce inside the kernel, so the
string operations the program uses are re-implemented over `List Char`
(a `String` is a structure wrapping a `List Char`). -/

/-- `charsStart s p` is true iff `p` is an initial segment of `s`. -/
def charsStart : List Char → List Char → Bool
  | _, [] => true
  | [], _ :: _ => false
  | a :: as, b :: bs => a == b && charsStart as bs

/-- `str::starts_with`. -/
def strStarts (s p : String) : Bool := charsStart s.data p.data

/-- `str::ends_with`. -/
def strEnds (s p : String) : Bool := charsStart s.data.reverse p.data.reverse

/-- Split a character list at every occurrence of `sep`. -/
def splitChar (sep : Char) : List Char → List (List Char)
  | [] => [[]]
  | c :: cs =>
    match splitChar sep cs with
    | [] => [[c]]
    | h :: t => if c == sep then [] :: h :: t else (c :: h) :: t

/-- Join character lists with `sep` between consecutive pieces. -/
def joinWithChar (sep : Char) : List (List Char) → List Char
  | [] => []
  | [x] => x
  | x :: y :: t => x ++ sep :: joinWithChar sep (y :: t)

/-- Decimal digits of `n`, most significant first (fueled recursion so the
kernel can evaluate it). -/
def natToCharsAux : Nat → Nat → List Char → List Char
  | 0, _, acc => acc
  | fuel + 1, n, acc =>
    let d := Char.ofNat (48 + n % 10)
    if n < 10 then d :: acc else natToCharsAux fuel (n / 10) (d :: acc)

/-- `u32::to_string` (decimal rendering of a machine integer). -/
def natToString (n : Nat) : String := ⟨natToCharsAux (n + 1) n []⟩

/-- ASCII whitespace test used by `str::trim`. -/
def isWs (c : Char) : Bool := c == ' ' || c == '\t' || c == '\n' || c == '\r'

/-- `str::trim`: strip leading and trailing whitespace. -/
def charTrim (l : List Char) : List Char :=
  ((l.dropWhile isWs).reverse.dropWhile isWs).reverse

/-- Numeric value of an ASCII digit, if `c` is one. -/
def digitVal (c : Char) : Option Nat :=
  if 48 ≤ c.toNat && c.toNat ≤ 57 then some (c.toNat - 48) else none

/-- Parse a non-empty all-digit character list into a natural number;
`none` on the empty list or any non-digit. -/
def parseNatChars : List Char → Option Nat → Option Nat
  | [], acc => acc
  | c :: cs, acc =>
    match digitVal c, acc with
    | some d, some a => parseNatChars cs (some (a * 10 + d))
    | some d, none => parseNatChars cs (some d)
    | none, _ => none

/-! ## Paths (src/paths.rs) -/

/-- `PathBuf::join`: joining an absolute component replaces the base. -/
def pathJoin (a b : String) : String :=
  if strStarts b "/" then b
  else if a == "" then b
  else if strEnds a "/" then a ++ b
  else a ++ "/" ++ b

/-- Stem of a file name, mirroring `Path::file_stem` for the plain
`stem.ext` names the program uses. -/
def fileStem (name : List Char) : List Char :=
  match splitChar '.' name with
  | [] => name
  | [x] => x
  | xs => joinWithChar '.' xs.dropLast

/-- `PathBuf::with_extension ext` on an absolute path whose final
component has the shape `stem.ext`. -/
def withExtension (p ext : String) : String :=
  let comps := splitChar '/' p.data
  let name := comps.getLastD []
  ⟨joinWithChar '/' (comps.dropLast ++ [fileStem name ++ '.' :: ext.data])⟩

/-- src/paths.rs `PathManager`. -/
structure PathManager where
  root : String
  greetd_dir : String
  config_file : String
  game_mode_config : String
deriving DecidableEq, Repr

def PathManager.get_greetd_dir (m : PathManager) : String :=
  pathJoin m.root m.greetd_dir

def PathManager.get_config_path (m : PathManager) : String :=
  pathJoin m.get_greetd_dir m.config_file

def PathManager.get_default_config_path (m : PathManager) : String :=
  pathJoin m.get_greetd_dir "config_default.toml"

def PathManager.get_game_mode_config_path (m : PathManager) : String :=
  pathJoin m.get_greetd_dir m.game_mode_config

/-! ## Configuration (src/config.rs) -/

def GREETD_DIR : String := "/etc/greetd"
def CONFIG_FILE : String := "config.toml"
def GAME_MODE_CONFIG : String := "game_mode_login.toml"
def GREETER_USER : String := "greeter"
def REQUIRED_GROUPS : List String := ["input", "video"]
def VT_NUMBER : Nat := 1
def SERVICE_NAME : String := "greetd"
def RESTART_COMMAND : String := "systemctl restart greetd"
def SERVICE_DEPENDENCY : String := "greetd.service"
def DEBUG_MODE : Bool := true

structure Paths where
  virtual_root : String
  greetd_dir : String
  config_file : String
  game_mode_config : String
deriving DecidableEq, Repr

structure Service where
  name : String
  restart_command : String
  dependency : String
deriving DecidableEq, Repr

structure GameMode where
  debug : Bool
deriving DecidableEq, Repr

structure Permissions where
  greeter_user : String
  required_groups : List String
deriving DecidableEq, Repr

structure Terminal where
  vt : Nat
deriving DecidableEq, Repr

structure Config where
  paths : Paths
  service : Service
  game_mode : GameMode
  permissions : Permissions
  terminal : Terminal
  path_manager : PathManager
deriving DecidableEq, Repr

/-- src/config.rs `Config::load`: builds the configuration from the
compile-time constants and always returns `Ok`. -/
def Config.load : Except String Config :=
  .ok
    { paths :=
        { virtual_root := ""
          greetd_dir := GREETD_DIR
          config_file := CONFIG_FILE
          game_mode_config := GAME_MODE_CONFIG }
      service :=
        { name := SERVICE_NAME
          restart_command := RESTART_COMMAND
          dependency := SERVICE_DEPENDENCY }
      game_mode := { debug := DEBUG_MODE }
      permissions :=
        { greeter_user := GREETER_USER
          required_groups := REQUIRED_GROUPS }
      terminal := { vt := VT_NUMBER }
      path_manager :=
        { root := ""
          greetd_dir := GREETD_DIR
          config_file := CONFIG_FILE
          game_mode_config := GAME_MODE_CONFIG } }

def Config.is_virtual_mode (c : Config) : Bool :=
  !(c.paths.virtual_root.isEmpty)

def Config.get_greetd_dir (c : Config) : String :=
  c.path_manager.get_greetd_dir

def Config.get_config_path (c : Config) : String :=
  c.path_manager.get_config_path

def Config.get_game_mode_config_path (c : Config) : String :=
  c.path_manager.get_game_mode_config_path

example : (match Config.load with
    | .ok c => c.get_config_path
    | .error _ => "") = "/etc/greetd/config.toml" := by decide

example : withExtension "/etc/greetd/config.toml" "toml.bak"
    = "/etc/greetd/config.toml.bak" := by decide

/-! ## Switch protocol (src/game_mode_switch.rs) -/

/-- How a modelled function run ends: `retOk` / `retErr` are the Rust
`Ok(())` / `Err(..)` returns; `exited code` models `std::process::exit`. -/
inductive ProcResult where
  | retOk
  | retErr
  | exited (code : Nat)
deriving DecidableEq, Repr

/-- The externally visible operations the daemon issues, in order. -/
inductive SwitchAction where
  | cp (src dst : String)
  | rm (p : String)
  | restart (cmd : String)
  | schedule (config_path backup_path : String) (delay : Nat)
  | sleep (secs : Nat)
  | readLock
  | psProbe (pid : Nat)
  | kill (pid : Nat)
  | createLock (pid : Nat)
  | chown (p : String)
deriving DecidableEq, Repr

def SwitchAction.isSchedule : SwitchAction → Bool
  | .schedule _ _ _ => true
  | _ => false

def SwitchAction.isRestart : SwitchAction → Bool
  | .restart _ => true
  | _ => false

def SwitchAction.isKill : SwitchAction → Bool
  | .kill _ => true
  | _ => false

def SwitchAction.isProbe : SwitchAction → Bool
  | .psProbe _ => true
  | _ => false

/-- True iff some `psProbe` occurs strictly after some `kill` in the
trace; this is what a wait-until-gone loop after the kill would show. -/
def hasProbeAfterKill : List SwitchAction → Bool
  | [] => false
  | a :: rest => (a.isKill && rest.any (fun b => b.isProbe)) || hasProbeAfterKill rest

/-- Outcomes of the three commands `switch_to_game_mode` spawns, in
program order: backup copy, game-profile copy, service restart. -/
structure CmdEnv where
  backupCp : CmdOutcome
  gameCp : CmdOutcome
  restartCmd : CmdOutcome
deriving DecidableEq, Repr

/-- Result of one `switch_to_game_mode` call: the `SWITCH_IN_PROGRESS`
flag afterwards, the filesystem afterwards, the commands issued, and how
the call ended. -/
structure SwitchOutcome where
  flag : Bool
  fs : Fs
  actions : List SwitchAction
  result : ProcResult
deriving DecidableEq, Repr

/-- Steps 2 and 3 of src/game_mode_switch.rs `switch_to_game_mode`
(lines 119-135): copy the game profile over the pointer file, restart the
greetd service, then `std::process::exit(0)`.  Each `status()?` call
propagates only a spawn error; the commands' exit statuses are never
inspected (a failed copy or restart does not abort). -/
def switchSteps23 (config : Config) (env : CmdEnv) (fs1 : Fs)
    (acts1 : List SwitchAction) : SwitchOutcome :=
  let config_path := config.get_config_path
  let game_mode_config := config.get_game_mode_config_path
  let acts2 := acts1 ++ [SwitchAction.cp game_mode_config config_path]
  match env.gameCp with
  | .spawnErr => { flag := true, fs := fs1, actions := acts2, result := .retErr }
  | .exited ok =>
    let fs2 := if ok then cpEffect fs1 game_mode_config config_path else fs1
    let acts3 := acts2 ++ [SwitchAction.restart config.service.restart_command]
    match env.restartCmd with
    | .spawnErr => { flag := true, fs := fs2, actions := acts3, result := .retErr }
    | .exited _ => { flag := true, fs := fs2, actions := acts3, result := .exited 0 }

/-- src/game_mode_switch.rs `switch_to_game_mode` (lines 91-136).
Checks only `SWITCH_IN_PROGRESS` (early `Ok` return when set), sets it,
loads the config, backs up the pointer file when it exists (a spawn error
of the backup copy propagates; its exit status is ignored), then runs
steps 2-3.  No session, terminal or foreground check appears anywhere in
the function, and it never calls `reset_config_after_delay`. -/
def switch_to_game_mode (flag : Bool) (fs : Fs) (env : CmdEnv) : SwitchOutcome :=
  if flag then
    { flag := flag, fs := fs, actions := [], result := .retOk }
  else
    match Config.load with
    | .error _ => { flag := true, fs := fs, actions := [], result := .retErr }
    | .ok config =>
      let config_path := config.get_config_path
      let backup_path := withExtension config_path "toml.bak"
      if fsExists fs config_path then
        match env.backupCp with
        | .spawnErr =>
          { flag := true, fs := fs,
            actions := [SwitchAction.cp config_path backup_path], result := .retErr }
        | .exited ok =>
          switchSteps23 config env
            (if ok then cpEffect fs config_path backup_path else fs)
            [SwitchAction.cp config_path backup_path]
      else switchSteps23 config env fs []

/-- Aggregate of a sequence of switch requests: final flag and filesystem,
how many requests passed the `SWITCH_IN_PROGRESS` gate (i.e. executed the
switch protocol), and all commands issued. -/
structure ReqOutcome where
  flag : Bool
  fs : Fs
  executed : Nat
  actions : List SwitchAction
deriving DecidableEq, Repr

/-- Process a sequence of switch requests one after another, each being a
call to `switch_to_game_mode` with its own command outcomes. -/
def runRequests : Bool → Fs → List CmdEnv → ReqOutcome
  | flag, fs, [] => { flag := flag, fs := fs, executed := 0, actions := [] }
  | flag, fs, env :: rest =>
    let o := switch_to_game_mode flag fs env
    let r := runRequests o.flag o.fs rest
    { flag := r.flag, fs := r.fs,
      executed := (if flag then 0 else 1) + r.executed,
      actions := o.actions ++ r.actions }

/-! ## Detached reverter (src/game_mode_switch.rs lines 13-89) -/

/-- Outcomes of the two commands the reverter's detached grandchild may
spawn: the restoring copy and the backup removal. -/
structure RevEnv where
  fs : Fs
  restoreCp : CmdOutcome
  rmCmd : CmdOutcome
deriving DecidableEq, Repr

/-- Result of the reverter's detached grandchild: filesystem afterwards,
the operations performed, and the process exit code. -/
structure RevOutcome where
  fs : Fs
  actions : List SwitchAction
  exitCode : Nat
deriving DecidableEq, Repr

/-- src/game_mode_switch.rs `reset_config_after_delay`: behaviour of the
double-forked grandchild (the surrounding forks and fd closing are
process plumbing with no filesystem effect).  It sleeps, and then: if the
backup exists it copies it over the config path; on success it removes
the backup; exit code 0 only when both commands succeed, 1 on any
failure; if the backup is missing it exits 1 without touching anything.
Unlike `switch_to_game_mode`, this function does inspect the exit status
of each command, and it never restarts the greetd service. -/
def reset_config_after_delay (config_path backup_path : String) (delay_secs : Nat)
    (env : RevEnv) : RevOutcome :=
  let acts0 := [SwitchAction.sleep delay_secs]
  if fsExists env.fs backup_path then
    let acts1 := acts0 ++ [SwitchAction.cp backup_path config_path]
    match env.restoreCp with
    | .spawnErr => { fs := env.fs, actions := acts1, exitCode := 1 }
    | .exited ok =>
      if ok then
        let fs1 := cpEffect env.fs backup_path config_path
        let acts2 := acts1 ++ [SwitchAction.rm backup_path]
        match env.rmCmd with
        | .spawnErr => { fs := fs1, actions := acts2, exitCode := 1 }
        | .exited ok2 =>
          if ok2 then { fs := fsRemove fs1 backup_path, actions := acts2, exitCode := 0 }
          else { fs := fs1, actions := acts2, exitCode := 1 }
      else { fs := env.fs, actions := acts1, exitCode := 1 }
  else { fs := env.fs, actions := acts0, exitCode := 1 }

/-! ## Input event loop (src/main.rs `run_game_mode`, lines 150-215) -/

/-- Gamepad buttons; only `Button::Mode` is distinguished by the code. -/
inductive GButton where
  | mode
  | south
  | start
  | other
deriving DecidableEq, Repr

/-- The gilrs event kinds matched in the loop. -/
inductive GEventType where
  | buttonPressed (b : GButton)
  | buttonReleased (b : GButton)
  | axisChanged
  | connected
deriving DecidableEq, Repr

/-- One entry of the OS session table: which user is logged in on which
terminal.  Part of the machine state the daemon runs on; the source code
of `run_game_mode` and `switch_to_game_mode` never queries it. -/
structure Session where
  user : String
  tty : String
deriving DecidableEq, Repr

/-- The machine state visible to one event-loop iteration: filesystem,
OS session table, and the outcomes of any commands a switch would spawn. -/
structure World where
  fs : Fs
  sessions : List Session
  cmds : CmdEnv
deriving DecidableEq, Repr

/-- True iff some session on terminal `tty` belongs to a user other than
`greeter_user` (the spec's "foreign user session on that terminal"). -/
def foreignSessionOn (sessions : List Session) (greeter_user tty : String) : Bool :=
  sessions.any (fun s => s.tty == tty && s.user != greeter_user)

/-- In-process state of the event loop: the `menu_pressed` debounce
marker of `run_game_mode` and the `SWITCH_IN_PROGRESS` flag of
`switch_to_game_mode`, plus the filesystem it mutates. -/
structure LoopState where
  menuPressed : Bool
  switchFlag : Bool
  fs : Fs
deriving DecidableEq, Repr

/-- Result of handling one gamepad event. -/
structure StepOutcome where
  st : LoopState
  invocations : Nat
  exited : Bool
deriving DecidableEq, Repr

/-- src/main.rs lines 188-206: the `match event` arms.  A press of
`Button::Mode` while `menu_pressed` is unset stores the marker and calls
`switch_to_game_mode` immediately (a `Err` from it is only logged; an
`exit` ends the process).  Releases and axis events only log.  The
session table in `w` is never consulted. -/
def handleEvent (st : LoopState) (w : World) (ev : GEventType) : StepOutcome :=
  match ev with
  | .buttonPressed b =>
    if b == GButton.mode && !st.menuPressed then
      let o := switch_to_game_mode st.switchFlag st.fs w.cmds
      { st := { menuPressed := true, switchFlag := o.flag, fs := o.fs },
        invocations := 1,
        exited := match o.result with
          | .exited _ => true
          | _ => false }
    else { st := st, invocations := 0, exited := false }
  | .buttonReleased _ => { st := st, invocations := 0, exited := false }
  | .axisChanged => { st := st, invocations := 0, exited := false }
  | .connected => { st := st, invocations := 0, exited := false }

/-- Drain a queue of gamepad events, stopping early when the process
exits inside a switch; returns the number of `switch_to_game_mode`
invocations and the final loop state. -/
def runEvents (w : World) : LoopState → List GEventType → Nat × LoopState
  | st, [] => (0, st)
  | st, ev :: rest =>
    let o := handleEvent st w ev
    if o.exited then (o.invocations, o.st)
    else
      let r := runEvents w o.st rest
      (o.invocations + r.1, r.2)

/-- The loop state `run_game_mode` starts with: both flags unset. -/
def loopInit (fs : Fs) : LoopState :=
  { menuPressed := false, switchFlag := false, fs := fs }

/-! ## Singleton lock (src/main.rs lines 23-98) -/

/-- Environment for one singleton acquisition: the lock file's content
(`none` when absent), whether reading it succeeds, the `sudo ps` probe
outcome, the `sudo kill -9` outcome, whether creating/writing the lock
file succeeds, and the `sudo chown` outcome. -/
structure LockEnv where
  lockFile : Option String
  readOk : Bool
  psOut : CmdOutcome
  killCmd : CmdOutcome
  createOk : Bool
  chownCmd : CmdOutcome
deriving DecidableEq, Repr

/-- src/main.rs `get_lock_file_path` (lines 23-26). -/
def get_lock_file_path : Except String String :=
  match Config.load with
  | .ok config => .ok (pathJoin config.get_greetd_dir "game-mode.lock")
  | .error e => .error e

/-- Rust `str::parse::<u32>` on the trimmed content: optional leading
plus sign, then one or more ASCII digits, value below 2^32. -/
def parse_u32 (s : String) : Option Nat :=
  let t := charTrim s.data
  let t := if charsStart t ['+'] then t.drop 1 else t
  match parseNatChars t none with
  | some n => if n < 4294967296 then some n else none
  | none => none

/-- src/main.rs `read_pid_from_lock_file` (lines 44-55): `Ok none` when
the lock file is absent or its content does not parse as a `u32`;
`Err` only when the filesystem read itself fails. -/
def read_pid_from_lock_file (env : LockEnv) : Except Unit (Option Nat) :=
  match env.lockFile with
  | none => .ok none
  | some s => if env.readOk then .ok (parse_u32 s) else .error ()

/-- src/main.rs `is_process_running` (lines 57-63): success of
`sudo ps -p pid`; a spawn error maps to `false`. -/
def is_process_running (env : LockEnv) (_pid : Nat) : Bool :=
  match env.psOut with
  | .spawnErr => false
  | .exited ok => ok

/-- src/main.rs `write_pid_to_lock_file` (lines 28-42): create the lock
file with the pid rendered in decimal, then (virtual mode being always
off) `sudo chown` it; a create/write failure or a chown spawn error is an
`Err`, a non-zero chown exit status is ignored.  Returns the lock file
content afterwards, the actions, and whether the call returned `Ok`. -/
def write_pid_to_lock_file (env : LockEnv) (lock : Option String) (pid : Nat) :
    Option String × List SwitchAction × Bool :=
  match Config.load, get_lock_file_path with
  | .ok config, .ok lock_file =>
    if env.createOk then
      let lock1 := some (natToString pid)
      if config.is_virtual_mode then (lock1, [SwitchAction.createLock pid], true)
      else
        match env.chownCmd with
        | .spawnErr => (lock1, [SwitchAction.createLock pid, SwitchAction.chown lock_file], false)
        | .exited _ => (lock1, [SwitchAction.createLock pid, SwitchAction.chown lock_file], true)
    else (lock, [SwitchAction.createLock pid], false)
  | _, _ => (lock, [], false)

/-- Result of one `kill_existing_processes` call. -/
structure LockOutcome where
  lockFile : Option String
  actions : List SwitchAction
  ok : Bool
deriving DecidableEq, Repr

/-- src/main.rs `kill_existing_processes` (lines 65-98): read the lock
file (an IO error propagates); when it names a different, live pid, issue
one `sudo kill -9` whose outcome is only logged; then unconditionally
write the caller's pid to the lock file.  No re-probe of the process
table happens after the kill. -/
def kill_existing_processes (current_pid : Nat) (env : LockEnv) : LockOutcome :=
  match read_pid_from_lock_file env with
  | .error _ => { lockFile := env.lockFile, actions := [SwitchAction.readLock], ok := false }
  | .ok maybePid =>
    let killActs : List SwitchAction :=
      match maybePid with
      | some p =>
        if p ≠ current_pid then
          if is_process_running env p then [SwitchAction.psProbe p, SwitchAction.kill p]
          else [SwitchAction.psProbe p]
        else []
      | none => []
    let w := write_pid_to_lock_file env env.lockFile current_pid
    { lockFile := w.1, actions := SwitchAction.readLock :: killActs ++ w.2.1, ok := w.2.2 }

/-! ## main (src/main.rs lines 249-280) -/

/-- Environment for one `main` run: logging setup success, CLI flags, the
singleton-acquisition environment, and the results of the coarse-grained
branches (`installer`, gamepad initialisation, the interactive menu). -/
structure MainEnv where
  setupOk : Bool
  installFlag : Bool
  greetdFlag : Bool
  lockEnv : LockEnv
  installOk : Bool
  gamepadOk : Bool
  menuRanGameMode : Bool
  menuOk : Bool
deriving DecidableEq, Repr

/-- What a `main` run did: whether the gamepad switch loop was armed
(`run_game_mode` invoked), the lock file afterwards, the result of the
acquisition (logged only), and whether the process exits zero. -/
structure MainOutcome where
  ranGameMode : Bool
  lockFile : Option String
  acquisitionOk : Bool
  exitZero : Bool
deriving DecidableEq, Repr

/-- src/main.rs `main` (lines 249-280): after logging setup, the result
of `kill_existing_processes` is pattern-matched with
`if let Err(e) = ... { error!(..) }` — logged and discarded, never
propagated — and `main` then proceeds to the install / greetd / menu
branch regardless.  The interactive menu may itself run the gamepad loop
(its option 2), which the environment records. -/
def mainRun (current_pid : Nat) (env : MainEnv) : MainOutcome :=
  if !env.setupOk then
    { ranGameMode := false, lockFile := env.lockEnv.lockFile,
      acquisitionOk := false, exitZero := false }
  else
    let acq := kill_existing_processes current_pid env.lockEnv
    if env.installFlag then
      { ranGameMode := false, lockFile := acq.lockFile,
        acquisitionOk := acq.ok, exitZero := env.installOk }
    else if env.greetdFlag then
      { ranGameMode := true, lockFile := acq.lockFile,
        acquisitionOk := acq.ok, exitZero := env.gamepadOk }
    else
      { ranGameMode := env.menuRanGameMode, lockFile := acq.lockFile,
        acquisitionOk := acq.ok, exitZero := env.menuOk }

/-! ## Concrete fixtures used by counterexamples and witnesses -/

/-- Filesystem holding the two profiles: pointer file with the desktop
profile's bytes, and the game profile. -/
def fs0 : Fs :=
  [("/etc/greetd/config.toml", "desktop profile"),
   ("/etc/greetd/game_mode_login.toml", "game profile")]

/-- All spawned commands succeed. -/
def cmdsOk : CmdEnv :=
  { backupCp := .exited true, gameCp := .exited true, restartCmd := .exited true }

/-- A machine state with a foreign (non-greeter) user session on the
configured greeter terminal (VT 1). -/
def world0 : World :=
  { fs := fs0, sessions := [{ user := "alice", tty := "tty1" }], cmds := cmdsOk }

/-! ## Helper lemmas on the switch protocol -/

/-- Early return of `switch_to_game_mode` when `SWITCH_IN_PROGRESS` is
already set: nothing happens. -/
theorem switch_inProgress_noop (fs : Fs) (env : CmdEnv) :
    switch_to_game_mode true fs env
      = { flag := true, fs := fs, actions := [], result := .retOk } := by
  simp [switch_to_game_mode]

theorem steps23_flag (config : Config) (env : CmdEnv) (fs1 : Fs) (acts1 : List SwitchAction) :
    (switchSteps23 config env fs1 acts1).flag = true := by
  obtain ⟨b, g, r⟩ := env
  cases g <;> cases r <;> simp [switchSteps23]

theorem steps23_all_noSchedule (config : Config) (env : CmdEnv) (fs1 : Fs)
    (acts1 : List SwitchAction) (h : acts1.all (fun a => !a.isSchedule) = true) :
    (switchSteps23 config env fs1 acts1).actions.all (fun a => !a.isSchedule) = true := by
  obtain ⟨b, g, r⟩ := env
  cases g <;> cases r <;>
    simp_all [switchSteps23, List.all_append, SwitchAction.isSchedule]

theorem steps23_result (config : Config) (env : CmdEnv) (fs1 : Fs)
    (acts1 : List SwitchAction) (hg : env.gameCp ≠ .spawnErr)
    (hr : env.restartCmd ≠ .spawnErr) :
    (switchSteps23 config env fs1 acts1).result = .exited 0 := by
  obtain ⟨b, g, r⟩ := env
  cases g <;> cases r <;> simp_all [switchSteps23]

/-- Every path through `switch_to_game_mode` leaves the flag set. -/
theorem switch_flag_true (flag : Bool) (fs : Fs) (env : CmdEnv) :
    (switch_to_game_mode flag fs env).flag = true := by
  cases flag
  · simp only [switch_to_game_mode, Config.load]
    split
    · simp_all
    · split
      · cases env.backupCp <;> simp [steps23_flag]
      · exact steps23_flag _ _ _ _
  · simp [switch_inProgress_noop]

/-! ## C1 -/

/-- C1 counterexample: a state with a foreign user session ("alice" on
"tty1", the configured greeter VT) in which processing a mode-button
event does mutate the pointer file, from the desktop profile's bytes to
the game profile's bytes — the code performs no session gate. -/
theorem c1_foreign_session_pointer_mutated :
    foreignSessionOn world0.sessions GREETER_USER "tty1" = true
    ∧ fsLookup fs0 "/etc/greetd/config.toml" = some "desktop profile"
    ∧ fsLookup (handleEvent (loopInit fs0) world0 (.buttonPressed .mode)).st.fs
        "/etc/greetd/config.toml" = some "game profile" := by
  decide

/-- C1 (corrected): a mode-button event mutates the filesystem only if
the `SWITCH_IN_PROGRESS` flag and the `menu_pressed` debounce marker are
both unset; the code performs no terminal, foreground or foreign-session
check, so whenever either flag is set the pointer file is left
byte-identical, irrespective of the session table, and when both are
unset the switch proceeds even with a foreign session present. -/
theorem c1_only_flag_gates (st : LoopState) (w : World) (ev : GEventType)
    (h : st.switchFlag = true ∨ st.menuPressed = true) :
    (handleEvent st w ev).st.fs = st.fs := by
  cases ev with
  | buttonPressed b =>
    rcases h with h | h
    · simp only [handleEvent]
      split
      · simp [h, switch_inProgress_noop]
      · rfl
    · simp [handleEvent, h]
  | buttonReleased b => rfl
  | axisChanged => rfl
  | connected => rfl

/-- C1 witness: the gating theorem applied at a concrete state whose
debounce marker is set. -/
theorem c1_only_flag_gates_witness :
    (handleEvent { menuPressed := true, switchFlag := false, fs := fs0 } world0
        (.buttonPressed .mode)).st.fs
      = ({ menuPressed := true, switchFlag := false, fs := fs0 } : LoopState).fs :=
  c1_only_flag_gates _ world0 _ (Or.inr rfl)

/-! ## C2 -/

/-- C2 counterexample: a run of the switch protocol in which all three
steps (backup copy, game-profile copy, service restart) complete, yet no
DetachedReverter is scheduled — the process just exits with status 0.
`reset_config_after_delay` has no call site in the program. -/
theorem c2_no_reverter_scheduled :
    (switch_to_game_mode false fs0 cmdsOk).actions
      = [SwitchAction.cp "/etc/greetd/config.toml" "/etc/greetd/config.toml.bak",
         SwitchAction.cp "/etc/greetd/game_mode_login.toml" "/etc/greetd/config.toml",
         SwitchAction.restart "systemctl restart greetd"]
    ∧ (switch_to_game_mode false fs0 cmdsOk).actions.all (fun a => !a.isSchedule) = true
    ∧ (switch_to_game_mode false fs0 cmdsOk).result = .exited 0 := by
  decide

/-- C2 (corrected): the switch protocol never schedules a
DetachedReverter on any path; when the gate passes and no command spawn
fails it terminates the whole process with exit status 0 after the three
steps, so nothing in this process ever reverts to the desktop profile. -/
theorem c2_switch_exits_without_reverter (flag : Bool) (fs : Fs) (env : CmdEnv) :
    (switch_to_game_mode flag fs env).actions.all (fun a => !a.isSchedule) = true
    ∧ (flag = false → env.backupCp ≠ .spawnErr → env.gameCp ≠ .spawnErr →
        env.restartCmd ≠ .spawnErr →
        (switch_to_game_mode flag fs env).result = .exited 0) := by
  cases flag
  · constructor
    · simp only [switch_to_game_mode, Config.load]
      split
      · simp_all
      · split
        · cases env.backupCp with
          | spawnErr => simp [SwitchAction.isSchedule]
          | exited ok =>
            exact steps23_all_noSchedule _ _ _ _ (by simp [SwitchAction.isSchedule])
        · exact steps23_all_noSchedule _ _ _ _ rfl
    · intro _ hb hg hr
      simp only [switch_to_game_mode, Config.load]
      split
      · simp_all
      · split
        · cases hbk : env.backupCp with
          | spawnErr => exact absurd hbk hb
          | exited ok => simpa using steps23_result _ _ _ _ hg hr
        · exact steps23_result _ _ _ _ hg hr
  · simp [switch_inProgress_noop]

/-- C2 witness: the theorem applied at a concrete passing run. -/
theorem c2_switch_exits_without_reverter_witness :
    (switch_to_game_mode false fs0 cmdsOk).actions.all (fun a => !a.isSchedule) = true
    ∧ (switch_to_game_mode false fs0 cmdsOk).result = .exited 0 := by
  have h := c2_switch_exits_without_reverter false fs0 cmdsOk
  exact ⟨h.1, h.2 rfl (by decide) (by decide) (by decide)⟩

/-! ## C3 -/

/-- C3 counterexample: the backup copy reports a non-zero exit status,
yet the protocol proceeds — the game profile is still copied over the
pointer file (whose backup was never made) and the run exits 0. -/
theorem c3_failed_backup_not_aborting :
    (switch_to_game_mode false fs0
        { backupCp := .exited false, gameCp := .exited true, restartCmd := .exited true }).actions
      = [SwitchAction.cp "/etc/greetd/config.toml" "/etc/greetd/config.toml.bak",
         SwitchAction.cp "/etc/greetd/game_mode_login.toml" "/etc/greetd/config.toml",
         SwitchAction.restart "systemctl restart greetd"]
    ∧ fsLookup (switch_to_game_mode false fs0
        { backupCp := .exited false, gameCp := .exited true, restartCmd := .exited true }).fs
        "/etc/greetd/config.toml.bak" = none
    ∧ fsLookup (switch_to_game_mode false fs0
        { backupCp := .exited false, gameCp := .exited true, restartCmd := .exited true }).fs
        "/etc/greetd/config.toml" = some "game profile"
    ∧ (switch_to_game_mode false fs0
        { backupCp := .exited false, gameCp := .exited true, restartCmd := .exited true }).result
      = .exited 0 := by
  decide

/-- C3 (corrected): exit statuses of the privileged commands in the
switch protocol are never inspected — only a spawn failure aborts.  With
the gate passed and every spawn succeeding, all three commands are issued
and the run exits 0 regardless of the three exit statuses; in particular
a failed backup copy does not stop the game-profile copy. -/
theorem c3_exit_status_ignored (fs : Fs) (ob og orr : Bool) :
    (switch_to_game_mode false fs
        { backupCp := .exited ob, gameCp := .exited og, restartCmd := .exited orr }).result
      = .exited 0
    ∧ SwitchAction.cp "/etc/greetd/game_mode_login.toml" "/etc/greetd/config.toml"
        ∈ (switch_to_game_mode false fs
            { backupCp := .exited ob, gameCp := .exited og, restartCmd := .exited orr }).actions
    ∧ SwitchAction.restart "systemctl restart greetd"
        ∈ (switch_to_game_mode false fs
            { backupCp := .exited ob, gameCp := .exited og, restartCmd := .exited orr }).actions := by
  refine ⟨?_, ?_, ?_⟩ <;>
    · simp only [switch_to_game_mode, Config.load]
      split
      · simp_all
      · split
        all_goals try simp [switchSteps23]
        all_goals decide

/-! ## C4 -/

/-- Reverter environment in which the backup exists and both commands
succeed. -/
def revEnv0 : RevEnv :=
  { fs := [("/etc/greetd/config.toml", "game profile"),
           ("/etc/greetd/config.toml.bak", "desktop profile"),
           ("/etc/greetd/game_mode_login.toml", "game profile")],
    restoreCp := .exited true, rmCmd := .exited true }

/-- C4 counterexample: a wake with the backup present in which the
reverter restores the pointer, deletes the backup and terminates with
success — but never restarts the login service (no restart action occurs
anywhere in its trace). -/
theorem c4_reverter_never_restarts_service :
    (reset_config_after_delay "/etc/greetd/config.toml" "/etc/greetd/config.toml.bak"
        300 revEnv0).exitCode = 0
    ∧ (reset_config_after_delay "/etc/greetd/config.toml" "/etc/greetd/config.toml.bak"
        300 revEnv0).actions
      = [SwitchAction.sleep 300,
         SwitchAction.cp "/etc/greetd/config.toml.bak" "/etc/greetd/config.toml",
         SwitchAction.rm "/etc/greetd/config.toml.bak"]
    ∧ (reset_config_after_delay "/etc/greetd/config.toml" "/etc/greetd/config.toml.bak"
        300 revEnv0).actions.all (fun a => !a.isRestart) = true := by
  decide

/-- C4 (corrected): after sleeping, the reverter with an existing backup
and succeeding commands copies the backup over the pointer, deletes the
backup and exits 0; with the backup missing it exits 1 without touching
the filesystem.  It never restarts the login service on any path. -/
theorem c4_reverter_behaviour (config_path backup_path : String) (delay : Nat)
    (fs : Fs) (cpo rmo : CmdOutcome) :
    (reset_config_after_delay config_path backup_path delay
        { fs := fs, restoreCp := cpo, rmCmd := rmo }).actions.all
        (fun a => !a.isRestart) = true
    ∧ (reset_config_after_delay config_path backup_path delay
        { fs := fs, restoreCp := .exited true, rmCmd := .exited true }).exitCode
      = (if fsExists fs backup_path then 0 else 1)
    ∧ (reset_config_after_delay config_path backup_path delay
        { fs := fs, restoreCp := .exited true, rmCmd := .exited true }).fs
      = (if fsExists fs backup_path then
          fsRemove (cpEffect fs backup_path config_path) backup_path
        else fs) := by
  refine ⟨?_, ?_, ?_⟩
  · cases cpo with
    | spawnErr =>
      simp [reset_config_after_delay, SwitchAction.isRestart]
      split <;> simp [SwitchAction.isRestart]
    | exited ok =>
      cases rmo <;> cases ok <;>
        · simp only [reset_config_after_delay]
          repeat' split
          all_goals simp_all [SwitchAction.isRestart]
  · simp only [reset_config_after_delay]
    split <;> simp
  · simp only [reset_config_after_delay]
    split <;> simp

/-- C4 witness: the behaviour theorem applied at the concrete
environment of the counterexample (no hypotheses to discharge; evaluated
at `revEnv0`). -/
theorem c4_reverter_behaviour_witness :
    (reset_config_after_delay "/etc/greetd/config.toml" "/etc/greetd/config.toml.bak"
        300 { fs := revEnv0.fs, restoreCp := .exited true, rmCmd := .exited true }).exitCode
      = (if fsExists revEnv0.fs "/etc/greetd/config.toml.bak" then 0 else 1) :=
  (c4_reverter_behaviour "/etc/greetd/config.toml" "/etc/greetd/config.toml.bak" 300
    revEnv0.fs (.exited true) (.exited true)).2.1

/-! ## C5 -/

/-- Lock environment with a live predecessor pid 1 on record and all
operations succeeding. -/
def lockEnv0 : LockEnv :=
  { lockFile := some "1", readOk := true, psOut := .exited true,
    killCmd := .exited true, createOk := true, chownCmd := .exited true }

/-- C5 counterexample: taking over from a live predecessor issues the
kill and immediately writes the lock file — the trace contains no
process-table probe after the kill, i.e. the acquirer never waits for the
predecessor to disappear. -/
theorem c5_no_wait_after_kill :
    (kill_existing_processes 2 lockEnv0).actions
      = [SwitchAction.readLock, SwitchAction.psProbe 1, SwitchAction.kill 1,
         SwitchAction.createLock 2, SwitchAction.chown "/etc/greetd/game-mode.lock"]
    ∧ hasProbeAfterKill (kill_existing_processes 2 lockEnv0).actions = false
    ∧ (kill_existing_processes 2 lockEnv0).lockFile = some "2" := by
  decide

/-- C5 (corrected): singleton acquisition kills a live predecessor
named by the lock file but never re-probes the process table afterwards
(it does not wait for the predecessor to disappear), and whenever the
acquisition returns `Ok` the lock file ends up holding exactly the
caller's pid in decimal. -/
theorem c5_takeover_without_wait (pid : Nat) (env : LockEnv) :
    hasProbeAfterKill (kill_existing_processes pid env).actions = false
    ∧ ((kill_existing_processes pid env).ok = true →
        (kill_existing_processes pid env).lockFile = some (natToString pid))
    ∧ (∀ p, read_pid_from_lock_file env = .ok (some p) → p ≠ pid →
        is_process_running env p = true →
        SwitchAction.kill p ∈ (kill_existing_processes pid env).actions) := by
  obtain ⟨lf, ro, ps, kc, co, ch⟩ := env
  refine ⟨?_, ?_, ?_⟩
  · simp only [kill_existing_processes, read_pid_from_lock_file,
      write_pid_to_lock_file, is_process_running, Config.load, get_lock_file_path]
    repeat' split
    all_goals
      simp_all [hasProbeAfterKill, SwitchAction.isKill, SwitchAction.isProbe]
  · simp only [kill_existing_processes, read_pid_from_lock_file,
      write_pid_to_lock_file, is_process_running, Config.load, get_lock_file_path]
    repeat' split
    all_goals intro h
    all_goals simp_all
  · intro p hread hne hrun
    simp only [kill_existing_processes, hread]
    simp only [read_pid_from_lock_file] at hread
    simp only [kill_existing_processes, read_pid_from_lock_file,
      write_pid_to_lock_file, is_process_running, Config.load,
      get_lock_file_path] at *
    repeat' split
    all_goals simp_all

/-- C5 witness: the takeover theorem applied at the concrete environment
with a live predecessor pid 1 and caller pid 2, discharging the
`Ok`-result and live-predecessor hypotheses there. -/
theorem c5_takeover_without_wait_witness :
    (kill_existing_processes 2 lockEnv0).lockFile = some (natToString 2)
    ∧ SwitchAction.kill 1 ∈ (kill_existing_processes 2 lockEnv0).actions := by
  have h := c5_takeover_without_wait 2 lockEnv0
  exact ⟨h.2.1 (by decide), h.2.2 1 rfl (by decide) (by decide)⟩

/-! ## C6 -/

/-- C6 counterexample: a press of the mode button with no matching
release already produces one invocation of the switch attempt — the code
triggers on `ButtonPressed`, not on the release. -/
theorem c6_press_without_release_switches :
    (runEvents world0 (loopInit fs0) [.buttonPressed .mode]).1 = 1
    ∧ (runEvents world0 (loopInit fs0) [.buttonPressed .mode]).1 ≠ 0 := by
  decide

/-- C6 (corrected): from the initial loop state, a press of the mode
button with no matching release produces exactly one invocation of the
switch attempt (fired on the press edge), and a press followed by its
matching release likewise produces exactly one — the release contributes
nothing. -/
theorem c6_press_edge_invocations (w : World) :
    (runEvents w (loopInit w.fs) [.buttonPressed .mode]).1 = 1
    ∧ (runEvents w (loopInit w.fs) [.buttonPressed .mode, .buttonReleased .mode]).1 = 1 := by
  constructor <;>
    · simp only [runEvents, handleEvent, loopInit]
      repeat' split
      all_goals simp_all [runEvents, handleEvent]

/-! ## C7 -/

/-- While `SWITCH_IN_PROGRESS` is set, a whole sequence of switch
requests is entirely inert: no protocol executes, no command is issued,
the filesystem is untouched. -/
theorem runRequests_flag_inert (fs : Fs) (envs : List CmdEnv) :
    runRequests true fs envs
      = { flag := true, fs := fs, executed := 0, actions := [] } := by
  induction envs with
  | nil => rfl
  | cons e rest ih =>
    simp [runRequests, switch_inProgress_noop, ih]

/-- C7 (confirmed): every switch request arriving while
`SWITCH_IN_PROGRESS` is true is a dropped no-op (no protocol execution,
no command, no filesystem mutation), and over any request sequence from
any starting flag at most one switch protocol ever executes. -/
theorem c7_single_switch (fs : Fs) (envs : List CmdEnv) :
    (runRequests true fs envs).executed = 0
    ∧ (runRequests true fs envs).fs = fs
    ∧ (runRequests true fs envs).actions = []
    ∧ ∀ (flag : Bool) (fs2 : Fs), (runRequests flag fs2 envs).executed ≤ 1 := by
  refine ⟨by simp [runRequests_flag_inert], by simp [runRequests_flag_inert],
    by simp [runRequests_flag_inert], ?_⟩
  intro flag fs2
  cases flag
  · cases envs with
    | nil => simp [runRequests]
    | cons e rest =>
      have hflag := switch_flag_true false fs2 e
      simp [runRequests, hflag, runRequests_flag_inert]
  · simp [runRequests_flag_inert]

/-! ## C8 -/

/-- Main-run environment in which reading the lock file fails with an IO
error while everything else succeeds, in greetd daemon mode. -/
def mainEnvReadErr : MainEnv :=
  { setupOk := true, installFlag := false, greetdFlag := true,
    lockEnv := { lockFile := some "1", readOk := false, psOut := .exited true,
                 killCmd := .exited true, createOk := true, chownCmd := .exited true },
    installOk := true, gamepadOk := true, menuRanGameMode := false, menuOk := true }

/-- Lock environment whose predecessor is live but whose kill command
reports failure; reading and writing the lock file succeed. -/
def lockEnvKillFail : LockEnv :=
  { lockFile := some "1", readOk := true, psOut := .exited true,
    killCmd := .exited false, createOk := true, chownCmd := .exited true }

/-- C8 counterexample: with a lock-file read error during acquisition,
`main` logs the failure, keeps going, arms the gamepad switch loop and
exits zero — the error is not fatal and does not prevent arming. -/
theorem c8_lock_error_not_fatal :
    (mainRun 2 mainEnvReadErr).acquisitionOk = false
    ∧ (mainRun 2 mainEnvReadErr).ranGameMode = true
    ∧ (mainRun 2 mainEnvReadErr).exitZero = true
    ∧ (mainRun 2 mainEnvReadErr).lockFile = some "1" := by
  decide

/-- C8 (corrected): `main` wraps `kill_existing_processes` in
`if let Err(e) = .. { error!(..) }`, so a lock read/write error is logged
and swallowed — the daemon still arms the switch logic and its exit
status is unaffected by the acquisition result; and (as the claim also
says) a mere kill failure inside acquisition is only a warning: whenever
the lock read does not error and the lock write succeeds, the acquisition
returns `Ok` with the caller's pid in the lock file, regardless of the
kill command's outcome. -/
theorem c8_acquisition_error_swallowed (pid : Nat) (env : MainEnv)
    (h : env.setupOk = true) :
    (mainRun pid env).ranGameMode
        = (if env.installFlag then false
           else if env.greetdFlag then true else env.menuRanGameMode)
    ∧ (mainRun pid env).acquisitionOk = (kill_existing_processes pid env.lockEnv).ok
    ∧ (mainRun pid env).exitZero
        = (if env.installFlag then env.installOk
           else if env.greetdFlag then env.gamepadOk else env.menuOk)
    ∧ ∀ lenv : LockEnv, read_pid_from_lock_file lenv ≠ .error () →
        lenv.createOk = true → lenv.chownCmd ≠ .spawnErr →
        (kill_existing_processes pid lenv).ok = true
        ∧ (kill_existing_processes pid lenv).lockFile = some (natToString pid) := by
  refine ⟨?_, ?_, ?_, ?_⟩
  · simp only [mainRun, h]
    repeat' split
    all_goals simp_all
  · simp only [mainRun, h]
    repeat' split
    all_goals simp_all
  · simp only [mainRun, h]
    repeat' split
    all_goals simp_all
  · intro lenv hread hco hch
    obtain ⟨lf, ro, ps, kc, co, ch⟩ := lenv
    simp only [kill_existing_processes, read_pid_from_lock_file,
      write_pid_to_lock_file, is_process_running, Config.load,
      get_lock_file_path] at *
    repeat' split
    all_goals simp_all

/-- C8 witness: the theorem applied at the read-error environment
(swallowed error, loop still armed) and, for the kill-failure half, at
`lockEnvKillFail`. -/
theorem c8_acquisition_error_swallowed_witness :
    (mainRun 2 mainEnvReadErr).ranGameMode = true
    ∧ (kill_existing_processes 2 lockEnvKillFail).ok = true
    ∧ (kill_existing_processes 2 lockEnvKillFail).lockFile = some (natToString 2) := by
  have h := c8_acquisition_error_swallowed 2 mainEnvReadErr rfl
  have h4 := h.2.2.2 lockEnvKillFail (by simp [read_pid_from_lock_file, lockEnvKillFail]) rfl (by decide)
  exact ⟨h.1, h4.1, h4.2⟩

/-! ## C9 -/

/-- C9 (confirmed): a lock file whose content does not parse as a `u32`
reads back as "no predecessor" (`Ok none`), and singleton acquisition
then kills nothing and simply overwrites the lock file with the caller's
pid. -/
theorem c9_unparsable_lock_means_no_predecessor (s : String) (env : LockEnv) (pid : Nat)
    (hparse : parse_u32 s = none) (hlock : env.lockFile = some s)
    (hread : env.readOk = true) :
    read_pid_from_lock_file env = .ok none
    ∧ (∀ a ∈ (kill_existing_processes pid env).actions, a.isKill = false)
    ∧ (env.createOk = true →
        (kill_existing_processes pid env).lockFile = some (natToString pid)) := by
  have hr : read_pid_from_lock_file env = .ok none := by
    simp [read_pid_from_lock_file, hlock, hread, hparse]
  refine ⟨hr, ?_, ?_⟩
  · simp only [kill_existing_processes, hr, write_pid_to_lock_file,
      Config.load, get_lock_file_path]
    repeat' split
    all_goals simp_all [SwitchAction.isKill]
  · intro hco
    simp only [kill_existing_processes, hr, write_pid_to_lock_file,
      Config.load, get_lock_file_path]
    repeat' split
    all_goals simp_all

/-- C9 witness: the theorem applied to a lock file holding garbage text,
with caller pid 7. -/
theorem c9_unparsable_lock_witness :
    read_pid_from_lock_file
        { lockFile := some "garbage", readOk := true, psOut := .exited true,
          killCmd := .exited true, createOk := true, chownCmd := .exited true }
      = .ok none
    ∧ (kill_existing_processes 7
        { lockFile := some "garbage", readOk := true, psOut := .exited true,
          killCmd := .exited true, createOk := true, chownCmd := .exited true }).lockFile
      = some (natToString 7) := by
  have h := c9_unparsable_lock_means_no_predecessor "garbage"
    { lockFile := some "garbage", readOk := true, psOut := .exited true,
      killCmd := .exited true, createOk := true, chownCmd := .exited true }
    7 (by decide) rfl rfl
  exact ⟨h.1, h.2.2 rfl⟩

/-! ## C10 -/

/-- C10 (confirmed): `Config.load` is infallible and constant — it
returns `Ok` with the configuration built from the compile-time
constants: greetd dir `/etc/greetd`, pointer file `config.toml`, game
profile `game_mode_login.toml`, greeter user `greeter`, VT 1, restart
command `systemctl restart greetd`, and an empty virtual root so
`is_virtual_mode` is false. -/
theorem c10_config_load_constant :
    ∃ c : Config, Config.load = Except.ok c
      ∧ c.get_greetd_dir = "/etc/greetd"
      ∧ c.get_config_path = "/etc/greetd/config.toml"
      ∧ c.get_game_mode_config_path = "/etc/greetd/game_mode_login.toml"
      ∧ c.paths.greetd_dir = "/etc/greetd"
      ∧ c.paths.config_file = "config.toml"
      ∧ c.paths.game_mode_config = "game_mode_login.toml"
      ∧ c.paths.virtual_root = ""
      ∧ c.permissions.greeter_user = "greeter"
      ∧ c.terminal.vt = 1
      ∧ c.service.restart_command = "systemctl restart greetd"
      ∧ c.is_virtual_mode = false := by
  refine ⟨_, rfl, ?_, ?_, ?_, ?_, ?_, ?_, ?_, ?_, ?_, ?_, ?_⟩ <;> decide
